import Mathlib

/-!
Verification of the helix chatbot service layer: a shallow embedding of the
user store (`helix/users.py`), the auth gate (`helix/auth.py`), the provider
adapter (`helix/openai_client.py`), the prompt composer (`helix/prompts.py`),
the rule-based intent classifier (`triple_helix_engine.py`) and the
`/v1/chat` request pipeline (`helix/api.py`), together with proofs of the
specification's testable properties.

Python strings are modelled as Lean `String`; Python `None`-able values as
`Option`; timestamps as `Int` (seconds since an arbitrary epoch, so that a
`timedelta(days=d)` is `d * 86400`); the sqlite `users` table as a function
from `uid` to an optional row. String primitives (`lower`, `strip`,
`startswith`, containment) are re-implemented over character lists so that
every definition reduces inside the kernel.
-/

namespace Helix

/-! ### Python string primitives -/

/-- `str.lower()` restricted to the character-wise mapping (ASCII-faithful). -/
def pyLower (s : String) : String := ⟨s.data.map Char.toLower⟩

/-- Python's default `str.strip()` whitespace set. -/
def isSpaceChar (c : Char) : Bool :=
  c = ' ' || c = '\t' || c = '\n' || c = '\r' || c = '\x0b' || c = '\x0c'

/-- `str.strip()`: drop leading and trailing whitespace. -/
def pyStrip (s : String) : String :=
  ⟨((s.data.dropWhile isSpaceChar).reverse.dropWhile isSpaceChar).reverse⟩

/-- `p` is a prefix of `l`, over character lists. -/
def isPrefixList : List Char → List Char → Bool
  | [], _ => true
  | _ :: _, [] => false
  | a :: p, b :: l => a = b && isPrefixList p l

/-- `p` occurs as a contiguous sublist of `l`. -/
def listContains (l p : List Char) : Bool :=
  if isPrefixList p l then true
  else match l with
    | [] => false
    | _ :: t => listContains t p

/-- Python's `pat in hay` on strings. -/
def pyContains (hay pat : String) : Bool := listContains hay.data pat.data

/-- `str.startswith(p)`. -/
def pyStartsWith (s p : String) : Bool := isPrefixList p.data s.data

/-- `s[n:]` by character count. -/
def pyDrop (s : String) (n : Nat) : String := ⟨s.data.drop n⟩

/-- Python truthiness of an optional string: `None` and `""` are falsy. -/
def optTruthy : Option String → Bool
  | none => false
  | some s => s ≠ ""

/-! ### User store (`helix/users.py`) -/

/-- One row of the `users` table (`UserRecord` in `helix/users.py`). -/
structure UserRow where
  uid : String
  email : Option String
  name : Option String
  created_at : Int
  last_seen_at : Int
  plan : String
  trial_started_at : Option Int
  trial_ends_at : Option Int
deriving DecidableEq, Repr

/-- `UserRecord.trial_active`, with the wall clock passed explicitly. -/
def trial_active (now : Int) (u : UserRow) : Bool :=
  if u.plan = "paid" || u.plan = "admin" then true
  else match u.trial_ends_at with
    | none => false
    | some te => now ≤ te

/-- The `users` table: at most one row per `uid` (it is the primary key). -/
def DB := String → Option UserRow

/-- SQL `COALESCE(new, old)`. -/
def coalesce (a b : Option String) : Option String :=
  match a with
  | some v => some v
  | none => b

/-- `get_or_create_user`: insert on first sight (with trial fields when
`trial_days > 0`), otherwise coalesce email/name and refresh `last_seen_at`.
Returns the updated table and the resulting row. -/
def get_or_create_user (trial_days_setting : Int) (now : Int) (db : DB)
    (uid : String) (email name : Option String) : DB × UserRow :=
  let trial_days : Int := max 0 trial_days_setting
  match db uid with
  | none =>
      let row : UserRow :=
        { uid := uid, email := email, name := name,
          created_at := now, last_seen_at := now,
          plan := if trial_days > 0 then "trial" else "free",
          trial_started_at := if trial_days > 0 then some now else none,
          trial_ends_at := if trial_days > 0 then some (now + trial_days * 86400) else none }
      (fun u => if u = uid then some row else db u, row)
  | some old =>
      let row : UserRow :=
        { old with email := coalesce email old.email,
                   name := coalesce name old.name,
                   last_seen_at := now }
      (fun u => if u = uid then some row else db u, row)

/-! ### Auth gate (`helix/auth.py`) -/

/-- Outcome of the api-key gate: pass, HTTP 401, or HTTP 500 (config). -/
inductive AuthOutcome
  | ok
  | unauthorized
  | configError
deriving DecidableEq, Repr

/-- The bearer-token extraction of `require_api_key`: if the header is
non-empty and case-insensitively starts with `"bearer "`, the rest,
stripped. -/
def bearer_token (authorization : Option String) : Option String :=
  match authorization with
  | none => none
  | some a =>
      if a ≠ "" && pyStartsWith (pyLower a) "bearer " then some (pyStrip (pyDrop a 7))
      else none

/-- The credential `require_api_key` ends up comparing: the bearer token if
it is truthy, else the stripped `X-API-Key` header if that is truthy. -/
def extracted_token (authorization x_api_key : Option String) : Option String :=
  let t := bearer_token authorization
  if !optTruthy t && optTruthy x_api_key then x_api_key.map pyStrip else t

/-- `require_api_key`: no-op outside `api_key` mode; 500 when the secret is
unset; 401 when the extracted credential is falsy or differs from the
secret. -/
def require_api_key (mode secret : String) (authorization x_api_key : Option String) :
    AuthOutcome :=
  if mode ≠ "api_key" then .ok
  else if secret = "" then .configError
  else
    match extracted_token authorization x_api_key with
    | none => .unauthorized
    | some t => if t = "" || t ≠ secret then .unauthorized else .ok

/-! ### Provider adapter (`helix/openai_client.py`) -/

/-- A usage object, modelled as its attribute dictionary (attribute name to
optional integer value); `getattr` with default `None` is a lookup. -/
def getattr_int (o : List (String × Option Int)) (k : String) : Option Int :=
  match o.find? (fun p => p.1 = k) with
  | some p => p.2
  | none => none

/-- One content fragment of a Responses-API output item. -/
structure Fragment where
  ctype : String
  text : Option String
deriving DecidableEq, Repr

/-- One output item of a Responses-API response. -/
structure OutputItem where
  content : List Fragment
deriving DecidableEq, Repr

/-- The shape of a Responses-API response the adapter reads. -/
structure ResponsesResp where
  id : Option String
  output_text : Option String
  output : List OutputItem
  usage : Option (List (String × Option Int))
deriving DecidableEq, Repr

/-- The fragment filter of the fallback extraction: keep `c.text` when the
fragment type is `output_text`/`text` and the text is truthy. -/
def fragment_text (c : Fragment) : Option String :=
  if (c.ctype = "output_text" || c.ctype = "text") && optTruthy c.text then c.text
  else none

/-- `"".join(...)` over all kept fragments of all output items, in order. -/
def fallback_text (r : ResponsesResp) : String :=
  String.join ((r.output.map (fun o => o.content.filterMap fragment_text)).flatten)

/-- The text the Responses branch extracts before the final strip: the
convenience `output_text` when truthy, else the fragment fallback. -/
def responses_text (r : ResponsesResp) : String :=
  match r.output_text with
  | some s => if s ≠ "" then s else fallback_text r
  | none => fallback_text r

/-- `(text or "").strip() or "(No response.)"`. -/
def finalize_text (t : String) : String :=
  if pyStrip t = "" then "(No response.)" else pyStrip t

/-- What `OpenAIProvider.generate` returns. -/
structure OpenAIResultM where
  text : String
  model : String
  response_id : Option String
  usage : Option (List (String × Option Int))
deriving DecidableEq, Repr

/-- The Responses-API branch of `generate`: extract text, normalize usage to
the three token fields. -/
def generate_responses (r : ResponsesResp) (model : String) : OpenAIResultM :=
  { text := finalize_text (responses_text r),
    model := model,
    response_id := r.id,
    usage := r.usage.map (fun uo =>
      [("input_tokens", getattr_int uo "input_tokens"),
       ("output_tokens", getattr_int uo "output_tokens"),
       ("total_tokens", getattr_int uo "total_tokens")]) }

/-- The shape of a legacy Chat Completions response the adapter reads:
`choices[0].message.content` and the raw usage object. -/
structure ChatCompletionResp where
  id : Option String
  first_choice_content : Option String
  usage : Option (List (String × Option Int))
deriving DecidableEq, Repr

/-- `(cc.choices[0].message.content or "")`. -/
def legacy_text (cc : ChatCompletionResp) : String :=
  match cc.first_choice_content with
  | some s => s
  | none => ""

/-- The legacy Chat Completions branch of `generate`: same text finalization,
but the usage object is passed through unchanged. -/
def generate_chat_completions (cc : ChatCompletionResp) (model : String) : OpenAIResultM :=
  { text := finalize_text (legacy_text cc),
    model := model,
    response_id := cc.id,
    usage := cc.usage }

/-- The three-field shape the spec calls "normalized" usage. -/
def normalized_usage (u : List (String × Option Int)) : Prop :=
  u.map Prod.fst = ["input_tokens", "output_tokens", "total_tokens"]

instance (u : List (String × Option Int)) : Decidable (normalized_usage u) := by
  unfold normalized_usage; infer_instance

/-! ### Prompt composer (`helix/prompts.py`) -/

/-- The dedented, stripped base instruction literal of `default_system_prompt`. -/
def helixBase : String :=
  String.intercalate "\n"
    ["You are the Triple Helix Innovation Chatbot.",
     "",
     "Constraints:",
     "- All answers must be consistent with Triple Helix innovation research (university–industry–government interactions; innovation systems; knowledge/technology transfer).",
     "- Provide citations for factual claims (papers, reports, or credible sources). Use inline citations like:",
     "  [Author, Year] or [Report Name, Year] and include a short \"Sources\" section when appropriate.",
     "- If a claim is uncertain or not supported by the provided context, say so and ask clarifying questions.",
     "- Prefer evidence-based, specific, and actionable answers."]

/-- The fixed header introducing the context documents. -/
def ctx_header : String := "\n\nReference documents (use these when relevant):\n\n"

/-- One document wrapped in its numbered begin/end markers. -/
def wrap_doc (i : Nat) (d : String) : String :=
  "--- Context Document " ++ toString i ++ " ---\n" ++ d ++
    "\n--- End Context Document " ++ toString i ++ " ---"

/-- `enumerate(docs, start=i)` mapped through `wrap_doc`. -/
def wrap_docs_from : Nat → List String → List String
  | _, [] => []
  | i, d :: ds => wrap_doc i d :: wrap_docs_from (i + 1) ds

/-- `[d.strip() for d in extra_docs if d and d.strip()]`. -/
def kept_docs (extra_docs : List String) : List String :=
  (extra_docs.filter (fun d => d ≠ "" && pyStrip d ≠ "")).map pyStrip

/-- `default_system_prompt`: the base alone when no document survives the
blank filter, else base + header + the numbered, wrapped documents joined by
blank lines. -/
def default_system_prompt (extra_docs : List String) : String :=
  let docs := kept_docs extra_docs
  if docs = [] then helixBase
  else helixBase ++ ctx_header ++ String.intercalate "\n\n" (wrap_docs_from 1 docs)

/-! ### Intent classifier (`triple_helix_engine.py`) -/

def funding_keywords : List String := ["grant", "funding", "proposal", "call for", "rfp"]

def commercialization_keywords : List String :=
  ["startup", "product", "go-to-market", "commercial", "pricing"]

def policy_keywords : List String :=
  ["policy", "regulation", "law", "compliance", "public sector", "government"]

def research_keywords : List String :=
  ["research", "paper", "university", "lab", "prototype", "method"]

def partnership_keywords : List String :=
  ["partnership", "mou", "consortium", "collaboration", "stakeholder"]

/-- `any(k in m for k in ks)`. -/
def kw_match (m : String) (ks : List String) : Bool := ks.any (fun k => pyContains m k)

/-- `_triage_intent`: lower-case and strip, then test the five keyword sets
in priority order, first match wins, `"general"` as default. -/
def triage_intent (message : String) : String :=
  let m := pyStrip (pyLower message)
  if kw_match m funding_keywords then "funding"
  else if kw_match m commercialization_keywords then "commercialization"
  else if kw_match m policy_keywords then "policy"
  else if kw_match m research_keywords then "research"
  else if kw_match m partnership_keywords then "partnership"
  else "general"

/-- The six labels the classifier can produce. -/
def intent_labels : List String :=
  ["funding", "commercialization", "policy", "research", "partnership", "general"]

/-! ### Request pipeline (`helix/api.py`, `POST /v1/chat`) -/

/-- One role-tagged turn of the request history. -/
structure ChatMessageM where
  role : String
  content : String
deriving DecidableEq, Repr

/-- The body of `POST /v1/chat` (defaults as in the pydantic model). -/
structure ChatRequestM where
  message : String
  messages : List ChatMessageM := []
  system_prompt : Option String := none
  context_documents : List String := []
  model : Option String := none
  temperature : Option Rat := none
  max_output_tokens : Option Nat := none
  metadata : List (String × String) := []
deriving DecidableEq, Repr

/-- The slice of `Settings` the chat handler reads. -/
structure SettingsM where
  model : String
  temperature : Rat
  dry_run : Bool
deriving DecidableEq, Repr

/-- The resolved auth context handed to the handler. -/
structure AuthContextM where
  mode : String
  user : Option UserRow := none
deriving DecidableEq, Repr

/-- The failure modes of the handler the embedding tracks. -/
inductive ChatError
  | unauthorized
  | trialExpired (trial_ends_at : Option Int)
deriving DecidableEq, Repr

/-- `_enforce_trial`: only the firebase mode is gated; an expired trial is a
402 carrying the trial end time. -/
def enforce_trial (now : Int) (auth : AuthContextM) : Except ChatError Unit :=
  if auth.mode ≠ "firebase" then .ok ()
  else match auth.user with
    | none => .error .unauthorized
    | some u =>
        if trial_active now u then .ok ()
        else .error (.trialExpired u.trial_ends_at)

/-- `req.model or settings.model` (truthiness: `None` and `""` fall back). -/
def resolveModel (req_model : Option String) (default_model : String) : String :=
  match req_model with
  | none => default_model
  | some m => if m = "" then default_model else m

/-- `settings.temperature if req.temperature is None else req.temperature`
(an `is None` test, so `0.0` overrides). -/
def resolveTemperature (req_temp : Option Rat) (default_temp : Rat) : Rat :=
  match req_temp with
  | none => default_temp
  | some t => t

/-- The argument tuple of the single `provider.generate` call. -/
structure ProviderCall where
  input_messages : List ChatMessageM
  system_prompt : String
  model : String
  temperature : Rat
  max_output_tokens : Option Nat
  metadata : Option (List (String × String))
deriving DecidableEq, Repr

/-- The metadata merge: start from the caller's map, add `request_id` and
`user_id` only when truthy/resolved and not already present. -/
def merge_metadata (md : List (String × String)) (rid : Option String)
    (user : Option UserRow) : List (String × String) :=
  let md1 := match rid with
    | some r =>
        if r ≠ "" && (md.find? (fun p => p.1 = "request_id")).isNone
        then md ++ [("request_id", r)] else md
    | none => md
  match user with
  | some u =>
      if (md1.find? (fun p => p.1 = "user_id")).isNone
      then md1 ++ [("user_id", u.uid)] else md1
  | none => md1

/-- Everything the non-dry-run branch of `chat` passes to the provider:
resolved model/temperature, composed system prompt (system turns folded in as
extra notes), non-system history plus the current message as trailing user
turn, merged metadata (`or None`). -/
def build_provider_call (st : SettingsM) (rid : Option String) (auth : AuthContextM)
    (req : ChatRequestM) : ProviderCall :=
  let base_prompt := match req.system_prompt with
    | some sp => if sp = "" then default_system_prompt req.context_documents else sp
    | none => default_system_prompt req.context_documents
  let extra_system := String.intercalate "\n\n"
    ((req.messages.filter (fun m => m.role = "system")).map (fun m => m.content))
  let system_prompt :=
    if pyStrip extra_system ≠ ""
    then base_prompt ++ "\n\nAdditional system notes:\n" ++ pyStrip extra_system
    else base_prompt
  let merged := merge_metadata req.metadata rid auth.user
  { input_messages := (req.messages.filter (fun m => m.role ≠ "system")) ++
      [{ role := "user", content := req.message }],
    system_prompt := system_prompt,
    model := resolveModel req.model st.model,
    temperature := resolveTemperature req.temperature st.temperature,
    max_output_tokens := req.max_output_tokens,
    metadata := if merged = [] then none else some merged }

/-- The response body of `POST /v1/chat`. -/
structure ChatResponseM where
  id : String
  created_at : Int
  model : String
  response : String
  openai_response_id : Option String
  usage : Option (List (String × Option Int))
deriving DecidableEq, Repr

/-- The dry-run placeholder response. -/
def dry_run_response (new_id : String) (now : Int) (model : String) (message : String) :
    ChatResponseM :=
  { id := new_id, created_at := now, model := model,
    response := "[dry_run] Received " ++ toString message.length ++
      " chars. Provide OPENAI_API_KEY to enable live calls.",
    openai_response_id := none, usage := none }

/-- The `chat` handler after auth resolution: enforce the trial, short-circuit
on dry-run, otherwise call the provider (an oracle parameter) once and shape
its result. `now`, `new_id` and `rid` stand for the wall clock, the fresh
uuid and the correlation id. -/
def chat (st : SettingsM) (now : Int) (new_id : String) (rid : Option String)
    (auth : AuthContextM) (req : ChatRequestM)
    (provider : ProviderCall → OpenAIResultM) : Except ChatError ChatResponseM :=
  let model := resolveModel req.model st.model
  match enforce_trial now auth with
  | .error e => .error e
  | .ok _ =>
      if st.dry_run then .ok (dry_run_response new_id now model req.message)
      else
        let result := provider (build_provider_call st rid auth req)
        .ok { id := new_id, created_at := now, model := result.model,
              response := result.text, openai_response_id := result.response_id,
              usage := result.usage }

/-- The response text of a handler outcome (empty on failure). -/
def respText : Except ChatError ChatResponseM → String
  | .ok r => r.response
  | .error _ => ""

/-- A provider oracle that returns a fixed empty result. -/
def null_provider : ProviderCall → OpenAIResultM :=
  fun _ => { text := "", model := "", response_id := none, usage := none }

end Helix

namespace Helix

/-! ### Helper lemmas -/

/-- After any `get_or_create_user` call, the table maps the uid to the
returned row. -/
theorem gocu_lookup (td now : Int) (db : DB) (uid : String) (e n : Option String) :
    (get_or_create_user td now db uid e n).1 uid =
      some (get_or_create_user td now db uid e n).2 := by
  unfold get_or_create_user
  cases db uid <;> simp

/-- `finalize_text` never returns the empty string. -/
theorem finalize_text_ne (t : String) : finalize_text t ≠ "" := by
  unfold finalize_text
  split
  · decide
  · assumption

/-- `finalize_text` is the placeholder exactly on blank input. -/
theorem finalize_text_blank (t : String) (h : pyStrip t = "") :
    finalize_text t = "(No response.)" := by
  unfold finalize_text
  simp [h]

/-! ### Claim theorems -/

/-- C1: `trial_active` is true exactly when the plan is `paid` or `admin`,
or `trial_ends_at` is set and the current time has not passed it; in every
other case it is false. -/
theorem C1_trial_active (now : Int) (u : UserRow) :
    trial_active now u = true ↔
      (u.plan = "paid" ∨ u.plan = "admin") ∨
      ∃ te, u.trial_ends_at = some te ∧ now ≤ te := by
  unfold trial_active
  rcases h : u.trial_ends_at with _ | te <;> split <;> simp_all

/-- C2: a second `get_or_create_user` with the same uid and null email/name
changes only `last_seen_at`; non-null email/name on a later call replace the
stored values while the creation and trial fields stay fixed. -/
theorem C2_get_or_create_idempotent (td t1 t2 : Int) (db : DB) (uid : String)
    (e nm : String) (t3 : Int) :
    ((get_or_create_user td t2 (get_or_create_user td t1 db uid none none).1
        uid none none).2 =
      { (get_or_create_user td t1 db uid none none).2 with last_seen_at := t2 }) ∧
    ((get_or_create_user td t3 (get_or_create_user td t1 db uid none none).1
        uid (some e) (some nm)).2 =
      { (get_or_create_user td t1 db uid none none).2 with
          email := some e, name := some nm, last_seen_at := t3 }) := by
  have hl := gocu_lookup td t1 db uid none none
  constructor <;>
    · conv_lhs => rw [get_or_create_user]
      rw [hl]
      simp [coalesce]

/-- C3: in both SDK branches the returned text is never empty, and whenever
the extracted text is blank after stripping the result is exactly the
literal placeholder. -/
theorem C3_no_empty_text (r : ResponsesResp) (cc : ChatCompletionResp) (model : String) :
    ((generate_responses r model).text ≠ "" ∧
     (pyStrip (responses_text r) = "" →
        (generate_responses r model).text = "(No response.)")) ∧
    ((generate_chat_completions cc model).text ≠ "" ∧
     (pyStrip (legacy_text cc) = "" →
        (generate_chat_completions cc model).text = "(No response.)")) :=
  ⟨⟨finalize_text_ne _, fun h => finalize_text_blank _ h⟩,
   ⟨finalize_text_ne _, fun h => finalize_text_blank _ h⟩⟩

/-- C3 witness: a Responses reply with no extractable fragment and a legacy
reply with whitespace content both yield the placeholder. -/
theorem C3_no_empty_text_witness :
    (generate_responses ⟨some "r1", none, [⟨[⟨"reasoning", some "x"⟩]⟩], none⟩ "m").text =
        "(No response.)" ∧
    (generate_chat_completions ⟨none, some "   ", none⟩ "m").text = "(No response.)" :=
  ⟨(C3_no_empty_text ⟨some "r1", none, [⟨[⟨"reasoning", some "x"⟩]⟩], none⟩
      ⟨none, some "   ", none⟩ "m").1.2 (by decide),
   (C3_no_empty_text ⟨some "r1", none, [⟨[⟨"reasoning", some "x"⟩]⟩], none⟩
      ⟨none, some "   ", none⟩ "m").2.2 (by decide)⟩

/-- C4 counterexample: the legacy Chat Completions branch passes the usage
object through unchanged, so a legacy response whose usage carries
`prompt_tokens`/`completion_tokens` keys is returned with exactly those keys,
not the three normalized fields. -/
theorem C4_counterexample :
    (generate_chat_completions
        ⟨some "cc1", some "hi",
         some [("prompt_tokens", some 5), ("completion_tokens", some 7)]⟩ "m").usage =
      some [("prompt_tokens", some 5), ("completion_tokens", some 7)] ∧
    ¬ normalized_usage [("prompt_tokens", some 5), ("completion_tokens", some 7)] := by
  constructor
  · rfl
  · decide

/-- C4 amended: only the Responses branch normalizes usage to the three
optional integer fields (with `None` for absent usage); the legacy Chat
Completions branch returns the usage object as-is. -/
theorem C4_usage_normalization (r : ResponsesResp) (cc : ChatCompletionResp) (model : String) :
    (r.usage = none → (generate_responses r model).usage = none) ∧
    (∀ uo, r.usage = some uo →
       ∃ u, (generate_responses r model).usage = some u ∧ normalized_usage u) ∧
    (generate_chat_completions cc model).usage = cc.usage := by
  refine ⟨?_, ?_, rfl⟩
  · intro h
    simp [generate_responses, h]
  · intro uo h
    refine ⟨[("input_tokens", getattr_int uo "input_tokens"),
             ("output_tokens", getattr_int uo "output_tokens"),
             ("total_tokens", getattr_int uo "total_tokens")], ?_, ?_⟩
    · simp [generate_responses, h]
    · simp [normalized_usage]

/-- C4 witness: a Responses reply with a populated usage object yields a
normalized three-field usage; one with absent usage yields `None`. -/
theorem C4_usage_normalization_witness :
    (∃ u, (generate_responses ⟨some "r1", some "ok", [],
        some [("input_tokens", some 3), ("cached_tokens", some 1)]⟩ "m").usage = some u ∧
      normalized_usage u) ∧
    (generate_responses ⟨some "r1", some "ok", [], none⟩ "m").usage = none :=
  ⟨(C4_usage_normalization ⟨some "r1", some "ok", [],
      some [("input_tokens", some 3), ("cached_tokens", some 1)]⟩
      ⟨none, none, none⟩ "m").2.1 _ rfl,
   (C4_usage_normalization ⟨some "r1", some "ok", [], none⟩
      ⟨none, none, none⟩ "m").1 rfl⟩

/-- C5 counterexample: the message `"Help us fund a pilot"` has 20
characters, so the dry-run response does not start with
`"[dry_run] Received 21 chars"`. -/
theorem C5_counterexample :
    pyStartsWith
      (respText (chat ⟨"gpt-5.2", 1, true⟩ 0 "id1" none ⟨"public", none⟩
        { message := "Help us fund a pilot" } null_provider))
      "[dry_run] Received 21 chars" = false := by
  decide

/-- C5 amended: under public auth with dry-run enabled, the chat handler
returns 200 with a response starting with `"[dry_run] Received 20 chars"`
(20 being the message's character count), null usage, and the result does
not depend on the provider adapter. -/
theorem C5_dry_run (st : SettingsM) (now : Int) (new_id : String) (rid : Option String)
    (p1 p2 : ProviderCall → OpenAIResultM) (hd : st.dry_run = true) :
    (∃ resp,
        chat st now new_id rid ⟨"public", none⟩
            { message := "Help us fund a pilot" } p1 = .ok resp ∧
        pyStartsWith resp.response "[dry_run] Received 20 chars" = true ∧
        resp.usage = none) ∧
    chat st now new_id rid ⟨"public", none⟩ { message := "Help us fund a pilot" } p1 =
      chat st now new_id rid ⟨"public", none⟩ { message := "Help us fund a pilot" } p2 := by
  unfold chat enforce_trial
  simp only [hd]
  refine ⟨⟨dry_run_response new_id now (resolveModel none st.model) "Help us fund a pilot",
      ?_, ?_, rfl⟩, ?_⟩
  · simp
  · simp only [dry_run_response]
    decide
  · simp

/-- C5 witness: the amended statement at a concrete dry-run configuration. -/
theorem C5_dry_run_witness :
    ∃ resp,
      chat ⟨"gpt-5.2", 1, true⟩ 0 "id1" none ⟨"public", none⟩
          { message := "Help us fund a pilot" } null_provider = .ok resp ∧
      pyStartsWith resp.response "[dry_run] Received 20 chars" = true ∧
      resp.usage = none :=
  (C5_dry_run ⟨"gpt-5.2", 1, true⟩ 0 "id1" none null_provider null_provider rfl).1

/-- C6: in api_key mode the gate is a server configuration error when the
secret is empty; with a non-empty secret it passes exactly when the extracted
credential equals the secret and is 401 otherwise, in particular when both
headers are absent. -/
theorem C6_api_key_gate (secret : String) (authorization x_api_key : Option String) :
    (secret = "" →
       require_api_key "api_key" secret authorization x_api_key = .configError) ∧
    (secret ≠ "" →
       require_api_key "api_key" secret authorization x_api_key =
         (if extracted_token authorization x_api_key = some secret then .ok
          else .unauthorized)) ∧
    (secret ≠ "" →
       require_api_key "api_key" secret none none = .unauthorized) := by
  refine ⟨?_, ?_, ?_⟩
  · intro h
    simp [require_api_key, h]
  · intro h
    unfold require_api_key
    simp only [ne_eq, not_true_eq_false, if_false, h, if_neg]
    cases he : extracted_token authorization x_api_key with
    | none => simp [he]
    | some t =>
        by_cases ht : t = secret
        · subst ht
          simp [he, h]
        · simp [he, ht]
  · intro h
    simp [require_api_key, extracted_token, bearer_token, optTruthy, h]

/-- C6 witness: with secret `"s3cret"`, the correct X-API-Key passes, a wrong
one is 401, missing headers are 401, and an empty secret is a config error. -/
theorem C6_api_key_gate_witness :
    require_api_key "api_key" "s3cret" none (some "s3cret") = .ok ∧
    require_api_key "api_key" "s3cret" none (some "wrong") = .unauthorized ∧
    require_api_key "api_key" "s3cret" none none = .unauthorized ∧
    require_api_key "api_key" "" none none = .configError := by
  refine ⟨?_, ?_,
    (C6_api_key_gate "s3cret" none none).2.2 (by decide),
    (C6_api_key_gate "" none none).1 rfl⟩
  · rw [(C6_api_key_gate "s3cret" none (some "s3cret")).2.1 (by decide)]
    decide
  · rw [(C6_api_key_gate "s3cret" none (some "wrong")).2.1 (by decide)]
    decide

/-- C7: the intent classifier is total over the six labels; a message whose
lower-cased, stripped form contains both `"grant"` and `"startup"` is
classified `funding` (funding keywords are checked first); when no keyword
set matches, the default is `"general"`. -/
theorem C7_triage_intent (message : String) :
    triage_intent message ∈ intent_labels ∧
    (pyContains (pyStrip (pyLower message)) "grant" = true →
     pyContains (pyStrip (pyLower message)) "startup" = true →
       triage_intent message = "funding") ∧
    (kw_match (pyStrip (pyLower message)) funding_keywords = false →
     kw_match (pyStrip (pyLower message)) commercialization_keywords = false →
     kw_match (pyStrip (pyLower message)) policy_keywords = false →
     kw_match (pyStrip (pyLower message)) research_keywords = false →
     kw_match (pyStrip (pyLower message)) partnership_keywords = false →
       triage_intent message = "general") := by
  refine ⟨?_, ?_, ?_⟩
  · simp only [triage_intent, intent_labels]
    split_ifs <;> simp
  · intro hg _
    have hf : kw_match (pyStrip (pyLower message)) funding_keywords = true := by
      simp [kw_match, funding_keywords, hg]
    unfold triage_intent
    simp [hf]
  · intro h1 h2 h3 h4 h5
    unfold triage_intent
    simp [h1, h2, h3, h4, h5]

/-- C7 witness: a message containing both `"grant"` and `"startup"` is
classified `funding`, and it is one of the six labels. -/
theorem C7_triage_intent_witness :
    triage_intent "Seeking a grant for my startup" = "funding" ∧
    triage_intent "Seeking a grant for my startup" ∈ intent_labels :=
  ⟨(C7_triage_intent "Seeking a grant for my startup").2.1 (by decide) (by decide),
   (C7_triage_intent "Seeking a grant for my startup").1⟩

/-- C8: the prompt composer returns the base unchanged on an empty or
all-blank document list; the surviving documents are exactly the non-blank
ones, stripped, in input order; and with at least one non-blank document the
result is the base plus the fixed header plus the numbered wrapped documents. -/
theorem C8_default_system_prompt (extra_docs : List String) :
    default_system_prompt [] = helixBase ∧
    ((∀ d ∈ extra_docs, pyStrip d = "") →
       default_system_prompt extra_docs = helixBase) ∧
    kept_docs extra_docs = (extra_docs.filter (fun d => pyStrip d ≠ "")).map pyStrip ∧
    ((∃ d ∈ extra_docs, pyStrip d ≠ "") →
       default_system_prompt extra_docs =
         helixBase ++ ctx_header ++
           String.intercalate "\n\n" (wrap_docs_from 1 (kept_docs extra_docs))) := by
  have hfil : ∀ d : String, (d ≠ "" && pyStrip d ≠ "") = (pyStrip d ≠ "" : Bool) := by
    intro d
    by_cases hd : d = ""
    · subst hd; decide
    · simp [hd]
  have hk : kept_docs extra_docs =
      (extra_docs.filter (fun d => pyStrip d ≠ "")).map pyStrip := by
    unfold kept_docs
    congr 1
    exact List.filter_congr (fun d _ => hfil d)
  refine ⟨rfl, ?_, hk, ?_⟩
  · intro hall
    have : kept_docs extra_docs = [] := by
      rw [hk]
      simp only [List.map_eq_nil_iff, List.filter_eq_nil_iff]
      intro d hd
      simp [hall d hd]
    simp [default_system_prompt, this]
  · intro ⟨d, hd, hne⟩
    have : kept_docs extra_docs ≠ [] := by
      rw [hk]
      simp only [ne_eq, List.map_eq_nil_iff, List.filter_eq_nil_iff, not_forall]
      exact ⟨d, hd, by simp [hne]⟩
    simp [default_system_prompt, this]

/-- C8 witness: an all-blank list yields the base unchanged; a mixed list
yields the base plus header plus the numbered wrapped non-blank documents. -/
theorem C8_default_system_prompt_witness :
    default_system_prompt ["", "   "] = helixBase ∧
    default_system_prompt ["", " docA ", "docB"] =
      helixBase ++ ctx_header ++
        String.intercalate "\n\n" (wrap_docs_from 1 (kept_docs ["", " docA ", "docB"])) :=
  ⟨(C8_default_system_prompt ["", "   "]).2.1 (by decide),
   (C8_default_system_prompt ["", " docA ", "docB"]).2.2.2 (by decide)⟩

/-- C9: when the Authorization header carries a non-empty bearer token, the
X-API-Key header is ignored: a mismatched bearer token is 401 even with the
correct secret in X-API-Key, and the outcome is the same as with no
X-API-Key at all. -/
theorem C9_bearer_precedence (secret a : String) (x_api_key : Option String) (t : String)
    (hb : bearer_token (some a) = some t) (ht : t ≠ "") (hs : secret ≠ "") :
    (t ≠ secret →
       require_api_key "api_key" secret (some a) x_api_key = .unauthorized) ∧
    require_api_key "api_key" secret (some a) x_api_key =
      require_api_key "api_key" secret (some a) none := by
  have he : ∀ x : Option String, extracted_token (some a) x = some t := by
    intro x
    unfold extracted_token
    rw [hb]
    simp [optTruthy, ht]
  constructor
  · intro hne
    simp [require_api_key, he, hs, ht, hne]
  · simp [require_api_key, he]

/-- C9 witness: `Bearer wrong` with `X-API-Key: s3cret` is still 401 under
secret `"s3cret"`. -/
theorem C9_bearer_precedence_witness :
    require_api_key "api_key" "s3cret" (some "Bearer wrong") (some "s3cret") =
      .unauthorized :=
  (C9_bearer_precedence "s3cret" "Bearer wrong" (some "s3cret") "wrong"
    (by decide) (by decide) (by decide)).1 (by decide)

/-- C10: in the chat pipeline a request temperature of exactly 0 overrides
the configured default (the test is an `is None` check), whereas an
empty-string request model falls back to the configured default (a
truthiness check); a non-empty request model does override. -/
theorem C10_override_semantics (st : SettingsM) (rid : Option String)
    (auth : AuthContextM) (req : ChatRequestM) :
    ((build_provider_call st rid auth req).temperature =
        resolveTemperature req.temperature st.temperature ∧
     (build_provider_call st rid auth req).model = resolveModel req.model st.model) ∧
    (req.temperature = some 0 → (build_provider_call st rid auth req).temperature = 0) ∧
    (req.model = some "" → (build_provider_call st rid auth req).model = st.model) ∧
    (∀ m, req.model = some m → m ≠ "" →
       (build_provider_call st rid auth req).model = m) := by
  have hT : (build_provider_call st rid auth req).temperature =
      resolveTemperature req.temperature st.temperature := by
    simp [build_provider_call]
  have hM : (build_provider_call st rid auth req).model =
      resolveModel req.model st.model := by
    simp [build_provider_call]
  refine ⟨⟨hT, hM⟩, ?_, ?_, ?_⟩
  · intro h
    rw [hT, h]
    rfl
  · intro h
    rw [hM, h]
    simp [resolveModel]
  · intro m h hm
    rw [hM, h]
    simp [resolveModel, hm]

/-- C10 witness: with default temperature 1 and default model `"gpt-5.2"`, a
request carrying temperature 0 and model `""` resolves to temperature 0 and
model `"gpt-5.2"`. -/
theorem C10_override_semantics_witness :
    (build_provider_call ⟨"gpt-5.2", 1, false⟩ none ⟨"public", none⟩
        { message := "hi", model := some "", temperature := some 0 }).temperature = 0 ∧
    (build_provider_call ⟨"gpt-5.2", 1, false⟩ none ⟨"public", none⟩
        { message := "hi", model := some "", temperature := some 0 }).model = "gpt-5.2" :=
  ⟨(C10_override_semantics ⟨"gpt-5.2", 1, false⟩ none ⟨"public", none⟩
      { message := "hi", model := some "", temperature := some 0 }).2.1 rfl,
   (C10_override_semantics ⟨"gpt-5.2", 1, false⟩ none ⟨"public", none⟩
      { message := "hi", model := some "", temperature := some 0 }).2.2.1 rfl⟩

end Helix
